import Mathlib

/-!
Shallow embedding of the cultPlayBooking automation service (src/app.py).

The service is a Flask app with three relevant parts:
* the Slot Matcher (parse_time_string, matches_preferred_timing,
  display_available_slots),
* the Booking Executor (book_slot, convert_utc_to_timestamp),
* the Booking Cycle Controller (booking_task) and the Telegram command
  dispatcher (is_admin, handle_command) with the scheduler arm/disarm helpers.

Python dynamic values are modelled by the inductive PyVal; Python exceptions
are modelled by Except String; outbound HTTP and Telegram traffic is modelled
by an explicit event trace.  Machine-level details that the code never relies
on (float values, unicode-aware strip/lower beyond ASCII, underscore digit
grouping in int()) are simplified and noted at the definition concerned.
-/

/-- A Python JSON-ish runtime value (None, bool, int, str, list, dict with
string keys, which is all the code ever stores). -/
inductive PyVal where
  | none : PyVal
  | bool : Bool → PyVal
  | int : Int → PyVal
  | str : String → PyVal
  | list : List PyVal → PyVal
  | dict : List (String × PyVal) → PyVal

/-- First-match lookup in a key/value list (Python dicts cannot hold duplicate
keys, so examples below always use distinct keys). -/
def lookup : List (String × PyVal) → String → Option PyVal
  | [], _ => Option.none
  | (k, v) :: rest, key => if k = key then Option.some v else lookup rest key

/-- Python truthiness of a value. -/
def pyTruthy : PyVal → Bool
  | PyVal.none => false
  | PyVal.bool b => b
  | PyVal.int n => n != 0
  | PyVal.str s => !s.toList.isEmpty
  | PyVal.list xs => !xs.isEmpty
  | PyVal.dict kvs => !kvs.isEmpty

/-- Python equality test of a value against an int (True == 1, strings and
containers never equal an int; the code only compares against ints). -/
def pyEqInt (v : PyVal) (n : Int) : Bool :=
  match v with
  | PyVal.int m => m == n
  | PyVal.bool b => (if b then (1 : Int) else 0) == n
  | _ => false

/-- Python comparison v > n against an int: ints and bools compare numerically,
anything else raises TypeError. -/
def pyGtInt (v : PyVal) (n : Int) : Except String Bool :=
  match v with
  | PyVal.int m => Except.ok (decide (n < m))
  | PyVal.bool b => Except.ok (decide (n < (if b then (1 : Int) else 0)))
  | _ => Except.error "TypeError: not comparable with int"

/-- Python x.get(key, default): only dicts have a .get attribute, everything
else raises AttributeError. -/
def pyGetAttrGet (v : PyVal) (key : String) (default : PyVal) : Except String PyVal :=
  match v with
  | PyVal.dict kvs => Except.ok ((lookup kvs key).getD default)
  | _ => Except.error "AttributeError: value has no attribute get"

/-- Python iteration: lists yield elements, strings yield 1-char strings,
dicts yield their keys; other values raise TypeError. -/
def pyIter : PyVal → Except String (List PyVal)
  | PyVal.list xs => Except.ok xs
  | PyVal.str s => Except.ok (s.toList.map fun c => PyVal.str (String.mk [c]))
  | PyVal.dict kvs => Except.ok (kvs.map fun kv => PyVal.str kv.1)
  | _ => Except.error "TypeError: value is not iterable"

/-- ASCII whitespace as stripped by Python str.strip / accepted by int(). -/
def isWsChar (c : Char) : Bool :=
  c = ' ' || c = '\t' || c = '\n' || c = '\r'

/-- Strip ASCII whitespace from both ends of a character list. -/
def trimChars (cs : List Char) : List Char :=
  ((cs.dropWhile isWsChar).reverse.dropWhile isWsChar).reverse

/-- Digit-string to Nat (caller guarantees all characters are digits). -/
def digitsNat (cs : List Char) : Nat :=
  cs.foldl (fun a c => a * 10 + (c.toNat - 48)) 0

/-- Python int() on a character list: optional surrounding whitespace,
optional sign, then a nonempty run of digits; anything else raises ValueError
(returned as Option.none).  Underscore digit grouping is not modelled. -/
def pyIntChars (cs : List Char) : Option Int :=
  let t := trimChars cs
  match t with
  | '+' :: rest =>
      if !rest.isEmpty && rest.all Char.isDigit
      then Option.some (Int.ofNat (digitsNat rest)) else Option.none
  | '-' :: rest =>
      if !rest.isEmpty && rest.all Char.isDigit
      then Option.some (-(Int.ofNat (digitsNat rest))) else Option.none
  | rest =>
      if !rest.isEmpty && rest.all Char.isDigit
      then Option.some (Int.ofNat (digitsNat rest)) else Option.none

/-- Python s.split(sep) for a single-character separator: keeps empty pieces,
never returns an empty list. -/
def splitCh (sep : Char) : List Char → List (List Char)
  | [] => [[]]
  | c :: cs =>
      if c = sep then [] :: splitCh sep cs
      else
        match splitCh sep cs with
        | g :: gs => (c :: g) :: gs
        | [] => [[c]]

/-- parse_time_string from src/app.py: split the label on a colon, take the
first two pieces, convert both with int(); any failure (non-string input,
fewer than two pieces, non-numeric piece) is caught and reported as no parse
(the code returns the pair (None, None)). -/
def parse_time_string (v : PyVal) : Option (Int × Int) :=
  match v with
  | PyVal.str s =>
      match (splitCh ':' s.toList).take 2 with
      | [a, b] =>
          match pyIntChars a, pyIntChars b with
          | Option.some h, Option.some m => Option.some (h, m)
          | _, _ => Option.none
      | _ => Option.none
  | _ => Option.none

/-- matches_preferred_timing from src/app.py, with the preferred timings
passed explicitly instead of read from the BOOKING_PREFERENCES global. -/
def matches_preferred_timing (timings : List (Int × Int)) (v : PyVal) : Bool :=
  match parse_time_string v with
  | Option.none => false
  | Option.some (h, m) => timings.any fun p => h == p.1 && m == p.2

/-- One element of the `available` list built by display_available_slots. -/
structure Entry where
  class_id : PyVal
  date : PyVal
  time : PyVal
  start_time_utc : PyVal
  seats : PyVal
  raw : PyVal

/-- The filter condition of display_available_slots for one class entry:
slot.get("workoutId") == sport_id and slot.get("availableSeats", 0) > 0 and
matches_preferred_timing(time_group.get("id", "")), with Python's lazy
evaluation order and its possible exceptions made explicit. -/
def slotFilter (sport : Int) (timings : List (Int × Int)) (time_group slot : PyVal) :
    Except String Bool :=
  match pyGetAttrGet slot "workoutId" PyVal.none with
  | Except.error e => Except.error e
  | Except.ok w =>
      if pyEqInt w sport then
        match pyGetAttrGet slot "availableSeats" (PyVal.int 0) with
        | Except.error e => Except.error e
        | Except.ok seats =>
            match pyGtInt seats 0 with
            | Except.error e => Except.error e
            | Except.ok b =>
                if b then
                  match pyGetAttrGet time_group "id" (PyVal.str "") with
                  | Except.error e => Except.error e
                  | Except.ok tid => Except.ok (matches_preferred_timing timings tid)
                else Except.ok false
      else Except.ok false

/-- The dict appended by display_available_slots for a passing class entry. -/
def buildEntry (date_group time_group slot : PyVal) : Except String Entry :=
  match pyGetAttrGet slot "id" PyVal.none with
  | Except.error e => Except.error e
  | Except.ok cid =>
      match pyGetAttrGet date_group "id" PyVal.none with
      | Except.error e => Except.error e
      | Except.ok d =>
          match pyGetAttrGet time_group "id" PyVal.none with
          | Except.error e => Except.error e
          | Except.ok t =>
              match pyGetAttrGet slot "startDateTimeUTC" PyVal.none with
              | Except.error e => Except.error e
              | Except.ok st =>
                  match pyGetAttrGet slot "availableSeats" (PyVal.int 0) with
                  | Except.error e => Except.error e
                  | Except.ok se =>
                      Except.ok
                        { class_id := cid, date := d, time := t,
                          start_time_utc := st, seats := se, raw := slot }

/-- Innermost loop of display_available_slots over the classes list. -/
def procClasses (sport : Int) (timings : List (Int × Int)) (dg tg : PyVal) :
    List PyVal → Except String (List Entry)
  | [] => Except.ok []
  | slot :: rest =>
      match slotFilter sport timings tg slot with
      | Except.error e => Except.error e
      | Except.ok b =>
          if b then
            match buildEntry dg tg slot with
            | Except.error e => Except.error e
            | Except.ok ent =>
                match procClasses sport timings dg tg rest with
                | Except.error e => Except.error e
                | Except.ok es => Except.ok (ent :: es)
          else procClasses sport timings dg tg rest

/-- Middle loop of display_available_slots over classByTimeList. -/
def procTimeGroups (sport : Int) (timings : List (Int × Int)) (dg : PyVal) :
    List PyVal → Except String (List Entry)
  | [] => Except.ok []
  | tg :: rest =>
      match pyGetAttrGet tg "classes" (PyVal.list []) with
      | Except.error e => Except.error e
      | Except.ok cls =>
          match pyIter cls with
          | Except.error e => Except.error e
          | Except.ok slots =>
              match procClasses sport timings dg tg slots with
              | Except.error e => Except.error e
              | Except.ok es1 =>
                  match procTimeGroups sport timings dg rest with
                  | Except.error e => Except.error e
                  | Except.ok es2 => Except.ok (es1 ++ es2)

/-- Outer loop of display_available_slots over classByDateList. -/
def procDateGroups (sport : Int) (timings : List (Int × Int)) :
    List PyVal → Except String (List Entry)
  | [] => Except.ok []
  | dg :: rest =>
      match pyGetAttrGet dg "classByTimeList" (PyVal.list []) with
      | Except.error e => Except.error e
      | Except.ok tl =>
          match pyIter tl with
          | Except.error e => Except.error e
          | Except.ok tgs =>
              match procTimeGroups sport timings dg tgs with
              | Except.error e => Except.error e
              | Except.ok es1 =>
                  match procDateGroups sport timings rest with
                  | Except.error e => Except.error e
                  | Except.ok es2 => Except.ok (es1 ++ es2)

/-- display_available_slots from src/app.py.  Returns Except.ok Option.none
when the input is not a dict or lacks the "classByDateList" key (the code's
early `return None`), Except.ok Option.none when nothing matched (the code's
`return available if available else None`), Except.ok (some entries) for a
nonempty match list, and Except.error for an exception escaping to the
caller. -/
def display_available_slots (schedule_data : PyVal) (sport_id : Int)
    (timings : List (Int × Int)) : Except String (Option (List Entry)) :=
  match schedule_data with
  | PyVal.dict kvs =>
      match lookup kvs "classByDateList" with
      | Option.none => Except.ok Option.none
      | Option.some v =>
          match pyIter v with
          | Except.error e => Except.error e
          | Except.ok dgs =>
              match procDateGroups sport_id timings dgs with
              | Except.error e => Except.error e
              | Except.ok es =>
                  Except.ok (if es.isEmpty then Option.none else Option.some es)
  | _ => Except.ok Option.none

/-- Python substring test: needle is a contiguous infix of hay. -/
def isSubChars (needle : List Char) : List Char → Bool
  | [] => needle.isEmpty
  | c :: rest => needle.isPrefixOf (c :: rest) || isSubChars needle rest

/-- Python `needle in hay` for strings. -/
def containsSub (hay needle : String) : Bool :=
  isSubChars needle.toList hay.toList

/-- ASCII lower-casing of one character (all the code lowers is ASCII). -/
def lowerChar (c : Char) : Char :=
  if 65 ≤ c.toNat && c.toNat ≤ 90 then Char.ofNat (c.toNat + 32) else c

/-- ASCII str.lower(). -/
def lowerStr (s : String) : String :=
  String.mk (s.toList.map lowerChar)

/-- str.strip() (ASCII whitespace). -/
def trimStr (s : String) : String :=
  String.mk (trimChars s.toList)

/-- Fuel-driven split of a character list on a (nonempty) separator list,
keeping empty pieces; the fuel is always called with more than the list's
length, which makes the last two equations unreachable. -/
def splitSubFuel (sep : List Char) : Nat → List Char → List (List Char)
  | _, [] => [[]]
  | 0, cs => [cs]
  | fuel + 1, c :: cs =>
      if sep.isPrefixOf (c :: cs) then
        [] :: splitSubFuel sep fuel (List.drop (sep.length - 1) cs)
      else
        match splitSubFuel sep fuel cs with
        | g :: gs => (c :: g) :: gs
        | [] => [[c]]

/-- Python s.split(sep) for a multi-character separator. -/
def splitSub (sep : String) (s : String) : List String :=
  (splitSubFuel sep.toList (s.toList.length + 1) s.toList).map String.mk

/-- Python s.replace(old, "") — remove every occurrence, left to right. -/
def removeAll (old : String) (s : String) : String :=
  String.mk ((splitSubFuel old.toList (s.toList.length + 1) s.toList).foldr
    (fun a b => a ++ b) [])

/-- The weekday abbreviations accepted by strptime %a (matched
case-insensitively; strptime does not check the weekday against the date). -/
def weekdayOk (s : String) : Bool :=
  ["mon", "tue", "wed", "thu", "fri", "sat", "sun"].contains (lowerStr s)

/-- strptime %b month abbreviation, matched case-insensitively. -/
def monthFromName (s : String) : Option Int :=
  match lowerStr s with
  | "jan" => Option.some 1
  | "feb" => Option.some 2
  | "mar" => Option.some 3
  | "apr" => Option.some 4
  | "may" => Option.some 5
  | "jun" => Option.some 6
  | "jul" => Option.some 7
  | "aug" => Option.some 8
  | "sep" => Option.some 9
  | "oct" => Option.some 10
  | "nov" => Option.some 11
  | "dec" => Option.some 12
  | _ => Option.none

/-- Gregorian leap-year test. -/
def isLeapYear (y : Int) : Bool :=
  y % 4 == 0 && (y % 100 != 0 || y % 400 == 0)

/-- Days in a month, as validated by datetime's constructor. -/
def daysInMonth (y m : Int) : Int :=
  if m == 2 then (if isLeapYear y then 29 else 28)
  else if m == 4 || m == 6 || m == 9 || m == 11 then 30
  else 31

/-- Days from 1970-01-01 to the given civil date (standard civil-from-days
inverse; divisions are exact truncations, and all inputs the witnesses use
are well inside the positive range). -/
def daysFromCivil (y m d : Int) : Int :=
  let y2 := if m ≤ 2 then y - 1 else y
  let era := (if 0 ≤ y2 then y2 else y2 - 399) / 400
  let yoe := y2 - era * 400
  let mp := (m + 9) % 12
  let doy := (153 * mp + 2) / 5 + d - 1
  let doe := yoe * 365 + yoe / 4 - yoe / 100 + doy
  era * 146097 + doe - 719468

/-- A 1-2 digit numeric strptime field with an inclusive range. -/
def parse2 (s : String) (lo hi : Int) : Option Int :=
  let cs := s.toList
  if !cs.isEmpty && cs.length ≤ 2 && cs.all Char.isDigit then
    let n : Int := Int.ofNat (digitsNat cs)
    if lo ≤ n && n ≤ hi then Option.some n else Option.none
  else Option.none

/-- A 4-digit strptime %Y field. -/
def parse4 (s : String) : Option Int :=
  let cs := s.toList
  if cs.length == 4 && cs.all Char.isDigit then Option.some (Int.ofNat (digitsNat cs))
  else Option.none

/-- datetime.strptime(s, "%a, %d %b %Y %H:%M:%S") followed by
.replace(tzinfo=utc).timestamp(): epoch seconds of the parsed UTC instant, or
Option.none when parsing or date validation fails.  Whitespace handling is the
single-space form the service's data uses; strptime's tolerance for extra
whitespace is not modelled. -/
def strptimeNoTZ (s : String) : Option Int :=
  match splitSub ", " s with
  | [wd, rest] =>
      if weekdayOk wd then
        match splitSub " " rest with
        | [dS, monS, yS, hmsS] =>
            match parse2 dS 1 31, monthFromName monS, parse4 yS with
            | Option.some d, Option.some mo, Option.some y =>
                match splitSub ":" hmsS with
                | [hS, miS, seS] =>
                    match parse2 hS 0 23, parse2 miS 0 59, parse2 seS 0 59 with
                    | Option.some h, Option.some mi, Option.some se =>
                        if d ≤ daysInMonth y mo then
                          Option.some (daysFromCivil y mo d * 86400 + h * 3600 + mi * 60 + se)
                        else Option.none
                    | _, _, _ => Option.none
                | _ => Option.none
            | _, _, _ => Option.none
        | _ => Option.none
      else Option.none
  | _ => Option.none

/-- convert_utc_to_timestamp from src/app.py: strip " GMT", parse with
strptime, convert to epoch milliseconds; every failure (including a non-string
input, whose .replace call raises) is caught and reported as Option.none. -/
def convert_utc_to_timestamp (v : PyVal) : Option Int :=
  match v with
  | PyVal.str s =>
      match strptimeNoTZ (removeAll " GMT" s) with
      | Option.some secs => Option.some (secs * 1000)
      | Option.none => Option.none
  | _ => Option.none

/-- The booking POST's outcome as seen by book_slot: a transport exception, or
a response with an HTTP status, the JSON-parsed body (Option.none when
resp.json() raised) and the raw text. -/
inductive HttpResult where
  | exc : String → HttpResult
  | resp : Int → Option PyVal → String → HttpResult

/-- The `title` local of book_slot: "" unless the parsed body is a dict, else
data.get("header", {}).get("title", "") or "" — the inner .get raises when the
header field is present but not a dict, and the `or ""` replaces a falsy title
by the empty string. -/
def titleVal (data : Option PyVal) : Except String PyVal :=
  match data with
  | Option.some (PyVal.dict kvs) =>
      let hdr := (lookup kvs "header").getD (PyVal.dict [])
      match pyGetAttrGet hdr "title" (PyVal.str "") with
      | Except.error e => Except.error e
      | Except.ok t => Except.ok (if pyTruthy t then t else PyVal.str "")
  | _ => Except.ok (PyVal.str "")

/-- Python `needle in v` for a needle string: raises TypeError unless v is a
string. -/
def pyInStr (needle : String) (v : PyVal) : Except String Bool :=
  match v with
  | PyVal.str s => Except.ok (containsSub s needle)
  | _ => Except.error "TypeError: argument is not iterable"

/-- Python v.lower(): raises AttributeError unless v is a string.  ASCII
lowering only, which is all the marker test needs. -/
def pyLower (v : PyVal) : Except String PyVal :=
  match v with
  | PyVal.str s => Except.ok (PyVal.str (lowerStr s))
  | _ => Except.error "AttributeError: value has no attribute lower"

/-- The body of book_slot's try block, reduced to the boolean it computes:
the success test is `resp.status_code == 200 and ("Booked" in title or
"confirmed" in title.lower())`, evaluated lazily, over the title extracted by
titleVal; an Except.error is an exception reaching the outer try (transport
exception, or a TypeError/AttributeError from a non-string truthy title). -/
def book_attempt (r : HttpResult) : Except String Bool :=
  match r with
  | HttpResult.exc m => Except.error m
  | HttpResult.resp status data _text =>
      match titleVal data with
      | Except.error e => Except.error e
      | Except.ok t =>
          if status == 200 then
            match pyInStr "Booked" t with
            | Except.error e => Except.error e
            | Except.ok b1 =>
                if b1 then Except.ok true
                else
                  match pyLower t with
                  | Except.error e => Except.error e
                  | Except.ok tl => pyInStr "confirmed" tl
          else Except.ok false

/-- book_slot from src/app.py, reduced to its returned boolean: the try-body
above with every exception caught and turned into False.  The log and
Telegram side effects carry no state and are not modelled here. -/
def book_slot (center_id : Int) (slot_id : PyVal) (workout_id : Int)
    (booking_timestamp : Int) (r : HttpResult) : Bool :=
  match book_attempt r with
  | Except.ok b => b
  | Except.error _ => false

/-- Accessor used to state the success predicate independently of book_slot's
control flow: the HTTP status of a non-exception outcome. -/
def httpStatus : HttpResult → Option Int
  | HttpResult.resp st _ _ => Option.some st
  | HttpResult.exc _ => Option.none

/-- Accessor used to state the success predicate independently of book_slot's
control flow: the response body's header.title field when it is a string. -/
def headerTitleString : HttpResult → Option String
  | HttpResult.resp _ (Option.some (PyVal.dict kvs)) _ =>
      match lookup kvs "header" with
      | Option.some (PyVal.dict h) =>
          match lookup h "title" with
          | Option.some (PyVal.str s) => Option.some s
          | _ => Option.none
      | _ => Option.none
  | _ => Option.none

/-- The BOOKING_PREFERENCES shared dict (its four fields, typed). -/
structure Prefs where
  centers : List Int
  preferred_timings : List (Int × Int)
  sport_id : Int
  enabled : Bool

/-- The controller-owned run state globals: booking_completed, last_run_time
(modelled as the clock value passed in by the environment), last_status. -/
structure RunState where
  booking_completed : Bool
  last_run_time : Option Int
  last_status : String

/-- The external world for one cycle: the current clock, each center's
schedule-fetch outcome (Except.error = the GET or its JSON parse raised), and
the boolean outcome of book_slot for an attempt (book_slot never raises, as
book_slot_success_iff below justifies). -/
structure Env where
  now : Int
  fetch : Int → Except String PyVal
  book : Int → PyVal → Int → Int → Bool

/-- Outbound traffic of one cycle: schedule fetches, Telegram notifications,
booking attempts (one per book_slot invocation). -/
inductive Event where
  | fetch : Int → Event
  | notify : String → Event
  | attempt : Int → PyVal → Event

/-- Python str() of a value, used only to build notification text; the repr of
nested containers is abbreviated since no message content depends on it. -/
def pyStr : PyVal → String
  | PyVal.none => "None"
  | PyVal.bool b => if b then "True" else "False"
  | PyVal.int n => toString n
  | PyVal.str s => s
  | PyVal.list _ => "[...]"
  | PyVal.dict _ => "\x7b...\x7d"

/-- The slot-discovery Telegram message of booking_task. -/
def slotMsg (center : Int) (first : Entry) : String :=
  "🏸 *Slot Available!*\n📍 Center: " ++ toString center ++
  "\n📅 Date: " ++ pyStr first.date ++
  "\n⏰ Time: " ++ pyStr first.time ++
  "\n🎟 Seats: " ++ pyStr first.seats ++
  "\n🆔 Class ID: " ++ pyStr first.class_id

/-- The timestamp-failure Telegram message of booking_task. -/
def tsFailMsg (center : Int) : String :=
  "⚠️ Could not convert slot time for Center " ++ toString center ++ " (missing/invalid)."

/-- Outcome of processing one center inside booking_task's loop: continue to
the next center, return from the function (successful booking), or an
exception escaping to the loop's outer try. -/
inductive StepOut where
  | cont : RunState → List Event → Bool → StepOut
  | stop : RunState → List Event → StepOut
  | boom : RunState → List Event → Bool → String → StepOut

/-- One iteration of booking_task's center loop: fetch the schedule (a fetch
exception is caught and the center skipped), run the matcher (its exceptions
escape), and on a truthy candidate list notify, derive the timestamp and
either attempt the first candidate or record the timestamp failure.  The
boolean carried out is whether this center set any_slot_found. -/
def centerStep (env : Env) (prefs : Prefs) (st : RunState) (c : Int) : StepOut :=
  match env.fetch c with
  | Except.error _ => StepOut.cont st [Event.fetch c] false
  | Except.ok sched =>
      match display_available_slots sched prefs.sport_id prefs.preferred_timings with
      | Except.error e => StepOut.boom st [Event.fetch c] false e
      | Except.ok Option.none => StepOut.cont st [Event.fetch c] false
      | Except.ok (Option.some []) => StepOut.cont st [Event.fetch c] false
      | Except.ok (Option.some (first :: _)) =>
          let msg := slotMsg c first
          let ts :=
            if pyTruthy first.start_time_utc then convert_utc_to_timestamp first.start_time_utc
            else Option.none
          match ts with
          | Option.some n =>
              if n != 0 then
                if env.book c first.class_id prefs.sport_id n then
                  StepOut.stop
                    { st with booking_completed := true, last_status := "Booking successful." }
                    [Event.fetch c, Event.notify msg, Event.attempt c first.class_id]
                else
                  StepOut.cont { st with last_status := "Booking attempted but failed." }
                    [Event.fetch c, Event.notify msg, Event.attempt c first.class_id] true
              else
                StepOut.cont { st with last_status := "Could not parse slot timestamp." }
                  [Event.fetch c, Event.notify msg, Event.notify (tsFailMsg c)] true
          | Option.none =>
              StepOut.cont { st with last_status := "Could not parse slot timestamp." }
                [Event.fetch c, Event.notify msg, Event.notify (tsFailMsg c)] true

/-- Result of booking_task's whole center loop (the body of its try). -/
inductive LoopOut where
  | earlyReturn : RunState → List Event → LoopOut
  | done : RunState → List Event → Bool → LoopOut
  | raised : RunState → List Event → Bool → String → LoopOut

/-- Prefix more events onto a loop outcome. -/
def LoopOut.prepend (evs : List Event) : LoopOut → LoopOut
  | LoopOut.earlyReturn st evs2 => LoopOut.earlyReturn st (evs ++ evs2)
  | LoopOut.done st evs2 af => LoopOut.done st (evs ++ evs2) af
  | LoopOut.raised st evs2 af e => LoopOut.raised st (evs ++ evs2) af e

/-- booking_task's `for center_id in BOOKING_PREFERENCES["centers"]` loop,
carrying run state and the any_slot_found flag. -/
def runCenters (env : Env) (prefs : Prefs) (st : RunState) (af : Bool) :
    List Int → LoopOut
  | [] => LoopOut.done st [] af
  | c :: rest =>
      match centerStep env prefs st c with
      | StepOut.cont st2 evs f => (runCenters env prefs st2 (af || f) rest).prepend evs
      | StepOut.stop st2 evs => LoopOut.earlyReturn st2 evs
      | StepOut.boom st2 evs f e => LoopOut.raised st2 evs (af || f) e

/-- booking_task from src/app.py: record last_run_time, gate on enabled,
run the center loop inside try/except, and finish with the
`if not any_slot_found` block (which also runs after a caught exception). -/
def booking_task (env : Env) (prefs : Prefs) (st0 : RunState) : RunState × List Event :=
  let st := { st0 with last_run_time := Option.some env.now }
  if prefs.enabled = false then
    ({ st with last_status := "Booking disabled in preferences." },
     [Event.notify "⚠️ Booking is disabled. Use /enable_booking to enable."])
  else
    match runCenters env prefs st false prefs.centers with
    | LoopOut.earlyReturn st2 evs => (st2, evs)
    | LoopOut.done st2 evs af =>
        if af then (st2, evs)
        else
          ({ st2 with last_status := "No matching slots found." },
           evs ++ [Event.notify "ℹ️ No matching slots found in this run."])
    | LoopOut.raised st2 evs af e =>
        let st3 := { st2 with last_status := "Error during booking run: " ++ e }
        let evs2 := evs ++ [Event.notify ("❌ Booking job error: " ++ e)]
        if af then (st3, evs2)
        else
          ({ st3 with last_status := "No matching slots found." },
           evs2 ++ [Event.notify "ℹ️ No matching slots found in this run."])

/-- The scheduler armed/disarmed flag plus the shared preferences and run
state: everything the command dispatcher can read or mutate. -/
structure SysState where
  prefs : Prefs
  run : RunState
  sched : Bool

/-- start_scheduler_background from src/app.py, reduced to the armed flag:
returns the new flag and whether it actually started (False = already
running). -/
def start_scheduler_background (armed : Bool) : Bool × Bool :=
  if armed then (armed, false) else (true, true)

/-- stop_scheduler_background from src/app.py, reduced to the armed flag. -/
def stop_scheduler_background (armed : Bool) : Bool × Bool :=
  if armed then (false, true) else (armed, false)

/-- scheduler_status from src/app.py. -/
def scheduler_status (armed : Bool) : String :=
  if armed then "running" else "stopped"

/-- is_admin from src/app.py: str(chat_id) == str(TELEGRAM_ADMIN_CHAT_ID),
with both identities already strings here. -/
def is_admin (chat_id admin_id : String) : Bool :=
  chat_id == admin_id

/-- Python str() of a bool, as interpolated into replies. -/
def pyBoolStr (b : Bool) : String :=
  if b then "True" else "False"

/-- The /start help reply. -/
def helpText : String :=
  "🤖 *CultPlay Scheduler*\nYour automated booking assistant.\n\n📋 *Commands*\n/status - Show scheduler & booking status\n/start_scheduler - Start daily scheduler\n/stop_scheduler - Stop scheduler\n/preferences - View booking preferences\n/enable_booking - Enable automatic booking\n/disable_booking - Disable automatic booking\n/run_now - Run booking immediately (manual)\n"

/-- The fixed unauthorized reply. -/
def unauthorizedText : String :=
  "🔒 Unauthorized. Only the bot admin can use control commands."

/-- The fixed unknown-command reply. -/
def unknownText : String :=
  "❓ Unknown command. Send /start for help."

/-- The /status reply (timestamp rendering simplified: the code formats the
datetime with strftime, here the clock value is shown as a number). -/
def statusText (s : SysState) : String :=
  "🟢 Scheduler: " ++ scheduler_status s.sched ++
  "\n🔔 Booking enabled: " ++ pyBoolStr s.prefs.enabled ++
  "\n✅ Booking completed: " ++ pyBoolStr s.run.booking_completed ++
  "\n⏱ Last run: " ++ (match s.run.last_run_time with
                       | Option.some t => toString t
                       | Option.none => "never") ++
  "\n📝 Last status: " ++ s.run.last_status

/-- The /preferences reply (rendering of the centers and timings lists is
abbreviated; no property depends on its exact text). -/
def prefsText (p : Prefs) : String :=
  "⚙️ Preferences\nCenters: [" ++ String.intercalate ", " (p.centers.map toString) ++
  "]\nTimings: [...]" ++
  "\nSport ID: " ++ toString p.sport_id ++
  "\nEnabled: " ++ pyBoolStr p.enabled

/-- The dispatcher's token normalization: command.strip().lower(). -/
def normTok (command : String) : String :=
  lowerStr (trimStr command)

/-- handle_command from src/app.py: normalize the token, answer /start to
anyone, gate every other command on is_admin, dispatch the seven recognized
commands (mutating the scheduler flag, the enabled flag, or running one cycle
for /run_now), and fall through to the unknown-command reply. -/
def handle_command (env : Env) (command chat_id admin_id : String) (s : SysState) :
    SysState × String :=
  if normTok command = "/start" then (s, helpText)
  else if is_admin chat_id admin_id = false then (s, unauthorizedText)
  else if normTok command = "/status" then (s, statusText s)
  else if normTok command = "/start_scheduler" then
    ({ s with sched := (start_scheduler_background s.sched).1 },
     if (start_scheduler_background s.sched).2 then "✅ Scheduler started."
     else "ℹ️ Scheduler already running.")
  else if normTok command = "/stop_scheduler" then
    ({ s with sched := (stop_scheduler_background s.sched).1 },
     if (stop_scheduler_background s.sched).2 then "✅ Scheduler stopped."
     else "ℹ️ Scheduler was not running.")
  else if normTok command = "/preferences" then (s, prefsText s.prefs)
  else if normTok command = "/enable_booking" then
    ({ s with prefs := { s.prefs with enabled := true } }, "🔔 Booking enabled.")
  else if normTok command = "/disable_booking" then
    ({ s with prefs := { s.prefs with enabled := false } }, "🔕 Booking disabled.")
  else if normTok command = "/run_now" then
    ({ s with run := (booking_task env s.prefs s.run).1 },
     "⚡ Manual run executed. Check status with /status.")
  else (s, unknownText)

/-- Run state carried out of one center step. -/
def StepOut.state : StepOut → RunState
  | StepOut.cont st _ _ => st
  | StepOut.stop st _ => st
  | StepOut.boom st _ _ _ => st

/-- Events emitted by one center step. -/
def StepOut.events : StepOut → List Event
  | StepOut.cont _ evs _ => evs
  | StepOut.stop _ evs => evs
  | StepOut.boom _ evs _ _ => evs

/-- Run state carried out of the whole center loop. -/
def LoopOut.state : LoopOut → RunState
  | LoopOut.earlyReturn st _ => st
  | LoopOut.done st _ _ => st
  | LoopOut.raised st _ _ _ => st

/-- Events emitted by the whole center loop. -/
def LoopOut.events : LoopOut → List Event
  | LoopOut.earlyReturn _ evs => evs
  | LoopOut.done _ evs _ => evs
  | LoopOut.raised _ evs _ _ => evs

/-- Is this event a schedule fetch? -/
def isFetchEv : Event → Bool
  | Event.fetch _ => true
  | _ => false

/-- Is this event a booking attempt? -/
def isAttemptEv : Event → Bool
  | Event.attempt _ _ => true
  | _ => false

/-- Is this event a booking attempt at the given center? -/
def isAttemptAt (c : Int) : Event → Bool
  | Event.attempt c2 _ => c2 == c
  | _ => false

theorem LoopOut.prepend_state (evs : List Event) (o : LoopOut) :
    (o.prepend evs).state = o.state := by
  cases o <;> rfl

theorem LoopOut.prepend_events (evs : List Event) (o : LoopOut) :
    (o.prepend evs).events = evs ++ o.events := by
  cases o <;> rfl

theorem centerStep_last_run (env : Env) (prefs : Prefs) (st : RunState) (c : Int) :
    (centerStep env prefs st c).state.last_run_time = st.last_run_time := by
  unfold centerStep
  repeat' split
  all_goals (try dsimp only)
  repeat' split
  all_goals simp [StepOut.state]

theorem centerStep_bc_mono (env : Env) (prefs : Prefs) (st : RunState) (c : Int)
    (h : st.booking_completed = true) :
    (centerStep env prefs st c).state.booking_completed = true := by
  unfold centerStep
  repeat' split
  all_goals (try dsimp only)
  repeat' split
  all_goals simp [StepOut.state, h]

theorem runCenters_last_run (env : Env) (prefs : Prefs) :
    ∀ (cs : List Int) (st : RunState) (af : Bool),
      (runCenters env prefs st af cs).state.last_run_time = st.last_run_time := by
  intro cs
  induction cs with
  | nil => intro st af; rfl
  | cons c rest ih =>
      intro st af
      unfold runCenters
      cases h : centerStep env prefs st c with
      | cont st2 evs f =>
          have h2 := centerStep_last_run env prefs st c
          rw [h] at h2
          simp [LoopOut.prepend_state, ih, h2, StepOut.state] at *
          simp [ih, h2]
      | stop st2 evs =>
          have h2 := centerStep_last_run env prefs st c
          rw [h] at h2
          simpa [LoopOut.state, StepOut.state] using h2
      | boom st2 evs f e =>
          have h2 := centerStep_last_run env prefs st c
          rw [h] at h2
          simpa [LoopOut.state, StepOut.state] using h2

theorem runCenters_bc_mono (env : Env) (prefs : Prefs) :
    ∀ (cs : List Int) (st : RunState) (af : Bool),
      st.booking_completed = true →
      (runCenters env prefs st af cs).state.booking_completed = true := by
  intro cs
  induction cs with
  | nil => intro st af h; exact h
  | cons c rest ih =>
      intro st af h
      unfold runCenters
      cases hc : centerStep env prefs st c with
      | cont st2 evs f =>
          have h2 := centerStep_bc_mono env prefs st c h
          rw [hc] at h2
          simp [LoopOut.prepend_state, StepOut.state] at h2 ⊢
          exact ih st2 (af || f) h2
      | stop st2 evs =>
          have h2 := centerStep_bc_mono env prefs st c h
          rw [hc] at h2
          simpa [LoopOut.state, StepOut.state] using h2
      | boom st2 evs f e =>
          have h2 := centerStep_bc_mono env prefs st c h
          rw [hc] at h2
          simpa [LoopOut.state, StepOut.state] using h2

theorem booking_task_last_run (env : Env) (prefs : Prefs) (st : RunState) :
    (booking_task env prefs st).1.last_run_time = Option.some env.now := by
  unfold booking_task
  by_cases h : prefs.enabled = false
  · simp [h]
  · simp [h]
    have h2 := runCenters_last_run env prefs prefs.centers
      { st with last_run_time := Option.some env.now } false
    cases ho : runCenters env prefs { st with last_run_time := Option.some env.now } false
        prefs.centers with
    | earlyReturn st2 evs =>
        rw [ho] at h2
        simpa [LoopOut.state] using h2
    | done st2 evs af =>
        rw [ho] at h2
        simp [LoopOut.state] at h2
        by_cases haf : af <;> simp [haf, h2]
    | raised st2 evs af e =>
        rw [ho] at h2
        simp [LoopOut.state] at h2
        by_cases haf : af <;> simp [haf, h2]

theorem booking_task_bc_mono (env : Env) (prefs : Prefs) (st : RunState)
    (h : st.booking_completed = true) :
    (booking_task env prefs st).1.booking_completed = true := by
  unfold booking_task
  by_cases he : prefs.enabled = false
  · simp [he, h]
  · simp [he]
    have h2 := runCenters_bc_mono env prefs prefs.centers
      { st with last_run_time := Option.some env.now } false (by simpa using h)
    cases ho : runCenters env prefs { st with last_run_time := Option.some env.now } false
        prefs.centers with
    | earlyReturn st2 evs =>
        rw [ho] at h2
        simpa [LoopOut.state] using h2
    | done st2 evs af =>
        rw [ho] at h2
        simp [LoopOut.state] at h2
        by_cases haf : af <;> simp [haf, h2]
    | raised st2 evs af e =>
        rw [ho] at h2
        simp [LoopOut.state] at h2
        by_cases haf : af <;> simp [haf, h2]

theorem centerStep_attempts_other (env : Env) (prefs : Prefs) (st : RunState) (c c2 : Int)
    (h : c ≠ c2) :
    (centerStep env prefs st c).events.filter (isAttemptAt c2) = [] := by
  unfold centerStep
  repeat' split
  all_goals (try dsimp only)
  repeat' split
  all_goals simp [StepOut.events, isAttemptAt, h]

theorem centerStep_attempts_self (env : Env) (prefs : Prefs) (st : RunState) (c : Int) :
    ((centerStep env prefs st c).events.filter (isAttemptAt c)).length ≤ 1 := by
  unfold centerStep
  repeat' split
  all_goals (try dsimp only)
  repeat' split
  all_goals simp [StepOut.events, isAttemptAt]

theorem runCenters_cons_events (env : Env) (prefs : Prefs) (st : RunState) (af : Bool)
    (c0 : Int) (rest : List Int) :
    (runCenters env prefs st af (c0 :: rest)).events =
      (centerStep env prefs st c0).events ++
        (match centerStep env prefs st c0 with
         | StepOut.cont st2 _ f => (runCenters env prefs st2 (af || f) rest).events
         | _ => []) := by
  simp only [runCenters]
  cases centerStep env prefs st c0 with
  | cont st2 evs f => simp [LoopOut.prepend_events, StepOut.events]
  | stop st2 evs => simp [LoopOut.events, StepOut.events]
  | boom st2 evs f e => simp [LoopOut.events, StepOut.events]

theorem runCenters_attempts_notmem (env : Env) (prefs : Prefs) :
    ∀ (cs : List Int) (st : RunState) (af : Bool) (c : Int), c ∉ cs →
      (runCenters env prefs st af cs).events.filter (isAttemptAt c) = [] := by
  intro cs
  induction cs with
  | nil => intro st af c _; rfl
  | cons c0 rest ih =>
      intro st af c hc
      have hne : c0 ≠ c := fun hh => hc (hh ▸ List.mem_cons_self c0 rest)
      have hrest : c ∉ rest := fun hh => hc (List.mem_cons_of_mem c0 hh)
      have h2 := centerStep_attempts_other env prefs st c0 c hne
      rw [runCenters_cons_events, List.filter_append, h2, List.nil_append]
      cases hstep : centerStep env prefs st c0 with
      | cont st2 evs f => exact ih st2 (af || f) c hrest
      | stop st2 evs => rfl
      | boom st2 evs f e => rfl

theorem runCenters_attempts_nodup (env : Env) (prefs : Prefs) :
    ∀ (cs : List Int) (st : RunState) (af : Bool) (c : Int), cs.Nodup →
      ((runCenters env prefs st af cs).events.filter (isAttemptAt c)).length ≤ 1 := by
  intro cs
  induction cs with
  | nil => intro st af c _; simp [runCenters, LoopOut.events]
  | cons c0 rest ih =>
      intro st af c hnd
      rw [List.nodup_cons] at hnd
      obtain ⟨h0, hrest⟩ := hnd
      rw [runCenters_cons_events, List.filter_append, List.length_append]
      by_cases hcc : c0 = c
      · subst hcc
        have h4 := centerStep_attempts_self env prefs st c0
        cases hstep : centerStep env prefs st c0 with
        | cont st2 evs f =>
            rw [hstep] at h4
            have h3 := runCenters_attempts_notmem env prefs rest st2 (af || f) c0 h0
            simpa [StepOut.events, h3] using h4
        | stop st2 evs =>
            rw [hstep] at h4
            simpa [StepOut.events] using h4
        | boom st2 evs f e =>
            rw [hstep] at h4
            simpa [StepOut.events] using h4
      · have h2 := centerStep_attempts_other env prefs st c0 c hcc
        rw [h2]
        simp only [List.length_nil, Nat.zero_add]
        cases hstep : centerStep env prefs st c0 with
        | cont st2 evs f => exact ih st2 (af || f) c hrest
        | stop st2 evs => simp
        | boom st2 evs f e => simp

/-- The initial run state of the process (module-level globals). -/
def st0 : RunState :=
  { booking_completed := false, last_run_time := Option.none, last_status := "" }

/-- A schedule document holding one matching badminton slot at 08:00. -/
def slotDictEx : PyVal :=
  PyVal.dict [("id", PyVal.int 111), ("workoutId", PyVal.int 350),
    ("availableSeats", PyVal.int 3),
    ("startDateTimeUTC", PyVal.str "Mon, 06 Jan 2025 08:00:00 GMT")]

/-- A well-formed schedule with the one matching slot above. -/
def schedEx : PyVal :=
  PyVal.dict [("classByDateList", PyVal.list [PyVal.dict
    [("id", PyVal.str "2025-01-06"),
     ("classByTimeList", PyVal.list [PyVal.dict
       [("id", PyVal.str "08:00"), ("classes", PyVal.list [slotDictEx])]])]])]

/-- The default BOOKING_PREFERENCES of src/app.py. -/
def prefsEx : Prefs :=
  { centers := [1106, 1107], preferred_timings := [(8, 0), (9, 0)],
    sport_id := 350, enabled := true }

/-- An environment in which every center offers the matching slot and every
booking attempt is rejected by the platform. -/
def envFailBook : Env :=
  { now := 17, fetch := fun _ => Except.ok schedEx, book := fun _ _ _ _ => false }

/-- An inert environment for dispatcher witnesses (fetches fail, bookings are
rejected). -/
def envIdle : Env :=
  { now := 0, fetch := fun _ => Except.error "ConnectionError", book := fun _ _ _ _ => false }

/-- A small concrete full system state for dispatcher witnesses. -/
def sys0 : SysState :=
  { prefs := prefsEx, run := st0, sched := false }

/-- C1 counterexample: with the default two-center preferences, an
environment in which both centers yield a matching candidate and the platform
rejects every booking, one cycle execution performs TWO booking attempts, at
two distinct centers — the controller does not return after the first failed
attempt, refuting the claim that at most one attempt is made per cycle. -/
theorem two_attempts_in_one_cycle :
    (booking_task envFailBook prefsEx st0).2.filter isAttemptEv =
      [Event.attempt 1106 (PyVal.int 111), Event.attempt 1107 (PyVal.int 111)] := by
  rfl

/-- C1 (amended): per cycle execution, at most one booking attempt is made at
each configured location (when the configured centers are distinct); the
controller never attempts two slots at the same location in one run, though
after a failed attempt it proceeds to the next location rather than
returning. -/
theorem at_most_one_attempt_per_center (env : Env) (prefs : Prefs) (st : RunState)
    (hnd : prefs.centers.Nodup) (c : Int) :
    ((booking_task env prefs st).2.filter (isAttemptAt c)).length ≤ 1 := by
  unfold booking_task
  by_cases he : prefs.enabled = false
  · simp [he, isAttemptAt]
  · simp only [he, if_false, Bool.false_eq_true]
    have h := runCenters_attempts_nodup env prefs prefs.centers
      { st with last_run_time := Option.some env.now } false c hnd
    cases ho : runCenters env prefs { st with last_run_time := Option.some env.now } false
        prefs.centers with
    | earlyReturn st2 evs =>
        rw [ho] at h
        simpa [LoopOut.events] using h
    | done st2 evs af =>
        rw [ho] at h
        simp only [LoopOut.events] at h
        by_cases haf : af <;>
          simpa [haf, List.filter_append, isAttemptAt] using h
    | raised st2 evs af e =>
        rw [ho] at h
        simp only [LoopOut.events] at h
        by_cases haf : af <;>
          simpa [haf, List.filter_append, isAttemptAt] using h

/-- C1 witness for the amended theorem, at the concrete failing environment:
the distinct centers 1106 and 1107 each see at most one attempt. -/
theorem at_most_one_attempt_per_center_witness :
    ((booking_task envFailBook prefsEx st0).2.filter (isAttemptAt 1106)).length ≤ 1 :=
  at_most_one_attempt_per_center envFailBook prefsEx st0 (by decide) 1106

/-- C2: every cycle records last_run_time on entry, and when the enabled flag
is false the cycle sets the disabled status, sends exactly the disabled
notification, and performs zero schedule fetches and zero booking attempts. -/
theorem disabled_gate_zero_calls (env : Env) (prefs : Prefs) (st : RunState) :
    (booking_task env prefs st).1.last_run_time = Option.some env.now ∧
    (prefs.enabled = false →
      (booking_task env prefs st).1.last_status = "Booking disabled in preferences." ∧
      (booking_task env prefs st).2 =
        [Event.notify "⚠️ Booking is disabled. Use /enable_booking to enable."] ∧
      (booking_task env prefs st).2.filter isFetchEv = [] ∧
      (booking_task env prefs st).2.filter isAttemptEv = []) := by
  refine ⟨booking_task_last_run env prefs st, fun h => ?_⟩
  unfold booking_task
  simp [h, isFetchEv, isAttemptEv]

/-- C2 witness: the disabled branch at a concrete environment. -/
theorem disabled_gate_zero_calls_witness :
    (booking_task envIdle { prefsEx with enabled := false } st0).1.last_status =
        "Booking disabled in preferences." ∧
    (booking_task envIdle { prefsEx with enabled := false } st0).2 =
      [Event.notify "⚠️ Booking is disabled. Use /enable_booking to enable."] ∧
    (booking_task envIdle { prefsEx with enabled := false } st0).2.filter isFetchEv = [] ∧
    (booking_task envIdle { prefsEx with enabled := false } st0).2.filter isAttemptEv = [] :=
  (disabled_gate_zero_calls envIdle { prefsEx with enabled := false } st0).2 rfl

theorem handle_command_bc_mono (env : Env) (command chat_id admin_id : String)
    (s : SysState) (h : s.run.booking_completed = true) :
    ((handle_command env command chat_id admin_id s).1).run.booking_completed = true := by
  unfold handle_command
  split_ifs <;> simp [h, booking_task_bc_mono env s.prefs s.run h]

/-- C8: booking_completed is monotonic — once true, neither a cycle execution
(booking_task) nor any command handled by the dispatcher (handle_command,
including /run_now) ever resets it to false. -/
theorem booking_completed_monotonic (env : Env) (prefs : Prefs) (st : RunState)
    (command chat_id admin_id : String) (s : SysState)
    (h1 : st.booking_completed = true) (h2 : s.run.booking_completed = true) :
    (booking_task env prefs st).1.booking_completed = true ∧
    ((handle_command env command chat_id admin_id s).1).run.booking_completed = true :=
  ⟨booking_task_bc_mono env prefs st h1,
   handle_command_bc_mono env command chat_id admin_id s h2⟩

/-- C8 witness: a state with booking_completed already true stays true across
a concrete cycle and a concrete /run_now command. -/
theorem booking_completed_monotonic_witness :
    (booking_task envFailBook prefsEx
        { st0 with booking_completed := true }).1.booking_completed = true ∧
    ((handle_command envIdle "/run_now" "1" "1"
        { sys0 with run := { st0 with booking_completed := true } }).1).run.booking_completed
      = true :=
  booking_completed_monotonic envFailBook prefsEx { st0 with booking_completed := true }
    "/run_now" "1" "1" { sys0 with run := { st0 with booking_completed := true } } rfl rfl

/-- C6: every recognized command other than /start, when issued by an
identity that is not the admin identity, yields exactly the fixed
unauthorized reply and leaves the whole shared state (BookingPreferences,
RunState and the scheduler flag) unchanged. -/
theorem handle_command_nonadmin (env : Env) (command chat_id admin_id : String)
    (s : SysState)
    (h0 : normTok command ≠ "/start")
    (hadm : is_admin chat_id admin_id = false) :
    handle_command env command chat_id admin_id s = (s, unauthorizedText) := by
  unfold handle_command
  simp [h0, hadm]

theorem unauthorized_fixed_reply_no_state_change (env : Env)
    (command chat_id admin_id : String) (s : SysState)
    (hmem : command ∈ ["/status", "/start_scheduler", "/stop_scheduler", "/preferences",
      "/enable_booking", "/disable_booking", "/run_now"])
    (hadm : is_admin chat_id admin_id = false) :
    handle_command env command chat_id admin_id s = (s, unauthorizedText) := by
  fin_cases hmem <;>
    exact handle_command_nonadmin env _ chat_id admin_id s (by decide) hadm

/-- C6 witness: a non-admin /disable_booking issued against admin "1". -/
theorem unauthorized_fixed_reply_no_state_change_witness :
    handle_command envIdle "/disable_booking" "2" "1" sys0 = (sys0, unauthorizedText) :=
  unauthorized_fixed_reply_no_state_change envIdle "/disable_booking" "2" "1" sys0
    (by decide) rfl

/-- C9 counterexample: an unrecognized command from a NON-admin identity gets
the unauthorized reply, not the unknown-command reply — the dispatcher checks
the admin gate before the unknown-command fallthrough, refuting "regardless
of the originating identity". -/
theorem unknown_command_nonadmin_gets_unauthorized :
    (handle_command envIdle "/bogus" "2" "1" sys0).2 = unauthorizedText ∧
    (handle_command envIdle "/bogus" "2" "1" sys0).2 ≠ unknownText := by
  constructor
  · rfl
  · decide

/-- C9 (amended): for every command token that normalizes to none of the
recognized commands, the dispatcher returns the fixed unknown-command reply
(and changes no state) provided the originating identity is the admin;
a non-admin identity receives the fixed unauthorized reply instead. -/
theorem unknown_command_admin_reply (env : Env) (command chat_id admin_id : String)
    (s : SysState)
    (hadm : is_admin chat_id admin_id = true)
    (hmem : normTok command ∉ ["/start", "/status", "/start_scheduler",
      "/stop_scheduler", "/preferences", "/enable_booking", "/disable_booking", "/run_now"]) :
    handle_command env command chat_id admin_id s = (s, unknownText) := by
  simp only [List.mem_cons, List.not_mem_nil, or_false, not_or] at hmem
  obtain ⟨h1, h2, h3, h4, h5, h6, h7, h8⟩ := hmem
  unfold handle_command
  simp [h1, h2, h3, h4, h5, h6, h7, h8, hadm]

/-- C9 witness for the amended theorem: an admin sending /bogus receives the
unknown-command reply. -/
theorem unknown_command_admin_reply_witness :
    handle_command envIdle "/bogus" "1" "1" sys0 = (sys0, unknownText) :=
  unknown_command_admin_reply envIdle "/bogus" "1" "1" sys0 rfl (by decide)

theorem splitCh_append (sep : Char) (a rest : List Char) (h : sep ∉ a) :
    splitCh sep (a ++ sep :: rest) = a :: splitCh sep rest := by
  induction a with
  | nil => simp [splitCh]
  | cons x xs ih =>
      simp only [List.mem_cons, not_or] at h
      obtain ⟨hx, hxs⟩ := h
      have hx2 : ¬(x = sep) := fun hh => hx hh.symm
      simp [splitCh, hx2, ih hxs]

/-- C10: parse_time_string uses only the first two colon-separated components
of the label — for a label "H:M:rest" whose first two components parse with
int(), the result is (H, M) and the trailing components are ignored, so such
a label still matches a preferred (hour, minute) pair in the set. -/
theorem parse_time_ignores_trailing (a b c : List Char) (hh mm : Int)
    (timings : List (Int × Int))
    (ha : ':' ∉ a) (hb : ':' ∉ b)
    (hpa : pyIntChars a = Option.some hh) (hpb : pyIntChars b = Option.some mm) :
    parse_time_string (PyVal.str (String.mk (a ++ ':' :: (b ++ ':' :: c)))) =
      Option.some (hh, mm) ∧
    ((hh, mm) ∈ timings →
      matches_preferred_timing timings
        (PyVal.str (String.mk (a ++ ':' :: (b ++ ':' :: c)))) = true) := by
  have h1 : splitCh ':' (a ++ ':' :: (b ++ ':' :: c)) = a :: b :: splitCh ':' c := by
    rw [splitCh_append ':' a (b ++ ':' :: c) ha, splitCh_append ':' b c hb]
  have h2 : parse_time_string (PyVal.str (String.mk (a ++ ':' :: (b ++ ':' :: c)))) =
      Option.some (hh, mm) := by
    show (match (splitCh ':' (String.mk (a ++ ':' :: (b ++ ':' :: c))).toList).take 2 with
      | [x, y] =>
          match pyIntChars x, pyIntChars y with
          | Option.some h, Option.some m => Option.some (h, m)
          | _, _ => Option.none
      | _ => Option.none) = Option.some (hh, mm)
    have h3 : (String.mk (a ++ ':' :: (b ++ ':' :: c))).toList = a ++ ':' :: (b ++ ':' :: c) := rfl
    rw [h3, h1]
    simp [hpa, hpb]
  refine ⟨h2, fun hmem => ?_⟩
  unfold matches_preferred_timing
  rw [h2]
  simp only [List.any_eq_true]
  exact ⟨(hh, mm), hmem, by simp⟩

/-- C10 witness: the label "08:00:00" parses as (8, 0) and matches the
preferred pair (8, 0). -/
theorem parse_time_ignores_trailing_witness :
    parse_time_string (PyVal.str (String.mk
      (['0', '8'] ++ ':' :: (['0', '0'] ++ ':' :: ['0', '0'])))) = Option.some (8, 0) ∧
    ((8, 0) ∈ [((8 : Int), (0 : Int))] →
      matches_preferred_timing [((8 : Int), (0 : Int))]
        (PyVal.str (String.mk
          (['0', '8'] ++ ':' :: (['0', '0'] ++ ':' :: ['0', '0'])))) = true) :=
  parse_time_ignores_trailing ['0', '8'] ['0', '0'] ['0', '0'] 8 0 [(8, 0)]
    (by decide) (by decide) (by decide) (by decide)

/-- Malformed top-level matcher input as the claim describes it: not a
mapping, or missing the date-grouping key. -/
def isMalformedTop (v : PyVal) : Bool :=
  match v with
  | PyVal.dict kvs => (lookup kvs "classByDateList").isNone
  | _ => true

/-- A well-formed schedule whose one entry fails the filters (wrong sport). -/
def schedNoMatch : PyVal :=
  PyVal.dict [("classByDateList", PyVal.list [PyVal.dict
    [("id", PyVal.str "2025-01-06"),
     ("classByTimeList", PyVal.list [PyVal.dict
       [("id", PyVal.str "08:00"),
        ("classes", PyVal.list [PyVal.dict
          [("id", PyVal.int 5), ("workoutId", PyVal.int 999),
           ("availableSeats", PyVal.int 2)]])]])]])]

/-- C4 counterexample: a well-formed schedule in which no entry passes the
filters returns exactly the same value (ok None) as malformed top-level input
(`return available if available else None`), so the two cases the claim
requires to be distinct are conflated. -/
theorem empty_and_malformed_conflated :
    display_available_slots schedNoMatch 350 [(8, 0)] = Except.ok Option.none ∧
    display_available_slots (PyVal.int 0) 350 [(8, 0)] = Except.ok Option.none ∧
    isMalformedTop schedNoMatch = false ∧
    isMalformedTop (PyVal.int 0) = true :=
  ⟨rfl, rfl, rfl, rfl⟩

/-- C4 (amended): malformed top-level input yields the explicit no-match
result (None) without failing the caller, but that result is the same value
returned for well-formed input whose match set is empty — the matcher never
returns an empty match list, so the two cases are conflated, not distinct. -/
theorem malformed_no_match (v : PyVal) (sport : Int) (timings : List (Int × Int)) :
    (isMalformedTop v = true →
      display_available_slots v sport timings = Except.ok Option.none) ∧
    display_available_slots v sport timings ≠ Except.ok (Option.some []) := by
  constructor
  · intro h
    cases v with
    | dict kvs =>
        simp only [isMalformedTop, Option.isNone_iff_eq_none] at h
        simp only [display_available_slots, h]
    | none => rfl
    | bool b => rfl
    | int n => rfl
    | str s => rfl
    | list xs => rfl
  · cases v with
    | dict kvs =>
        simp only [display_available_slots]
        cases hl : lookup kvs "classByDateList" with
        | none => simp
        | some w =>
            cases hi : pyIter w with
            | error e => simp [hi]
            | ok dgs =>
                cases hp : procDateGroups sport timings dgs with
                | error e => simp [hi, hp]
                | ok es =>
                    cases es with
                    | nil => simp [hi, hp]
                    | cons e0 rest => simp [hi, hp]
    | none => simp [display_available_slots]
    | bool b => simp [display_available_slots]
    | int n => simp [display_available_slots]
    | str s => simp [display_available_slots]
    | list xs => simp [display_available_slots]

/-- A schedule whose date-group list holds a non-dict, so the matcher raises
AttributeError into the controller. -/
def schedBadNested : PyVal :=
  PyVal.dict [("classByDateList", PyVal.list [PyVal.int 0])]

/-- Every center returns the exception-raising schedule. -/
def envBoom : Env :=
  { now := 3, fetch := fun _ => Except.ok schedBadNested, book := fun _ _ _ _ => false }

/-- One configured center. -/
def prefsOne : Prefs :=
  { centers := [7], preferred_timings := [(8, 0)], sport_id := 350, enabled := true }

/-- C5 counterexample: in a cycle whose center loop raises an exception (the
loop result is `raised`) with no slot found before it, the final last_status
is "No matching slots found.", not the error text — the trailing
`if not any_slot_found` block overwrites the recorded error. -/
theorem exception_status_overwritten :
    runCenters envBoom prefsOne { st0 with last_run_time := Option.some envBoom.now } false
        prefsOne.centers =
      LoopOut.raised { st0 with last_run_time := Option.some envBoom.now } [Event.fetch 7]
        false "AttributeError: value has no attribute get" ∧
    (booking_task envBoom prefsOne st0).1.last_status = "No matching slots found." :=
  ⟨rfl, rfl⟩

/-- C5 (amended): an exception inside the cycle is caught at booking_task's
top level and notified, and never propagates (booking_task always returns a
result); last_status holds the error text when a slot had been found before
the exception, but is overwritten with "No matching slots found." when none
had been. -/
theorem exception_caught_and_notified (env : Env) (prefs : Prefs) (st : RunState)
    (st2 : RunState) (evs : List Event) (af : Bool) (e : String)
    (hen : prefs.enabled = true)
    (hrun : runCenters env prefs { st with last_run_time := Option.some env.now } false
        prefs.centers = LoopOut.raised st2 evs af e) :
    (booking_task env prefs st).1.last_status =
      (if af then "Error during booking run: " ++ e else "No matching slots found.") ∧
    Event.notify ("❌ Booking job error: " ++ e) ∈ (booking_task env prefs st).2 := by
  unfold booking_task
  simp only [hen, Bool.true_eq_false, if_false, hrun]
  by_cases haf : af <;> simp [haf]

/-- An environment where center 1 yields a failing attempt and center 2 then
raises, so the exception arrives with any_slot_found already true. -/
def envBoom2 : Env :=
  { now := 4,
    fetch := fun c => if c == 1 then Except.ok schedEx else Except.ok schedBadNested,
    book := fun _ _ _ _ => false }

/-- Two configured centers for the exception-after-slot witness. -/
def prefsTwo : Prefs :=
  { centers := [1, 2], preferred_timings := [(8, 0)], sport_id := 350, enabled := true }

/-- C5 witness: with a slot found (and its booking failed) before the
exception, last_status does keep the error text and the error notification is
sent. -/
theorem exception_caught_and_notified_witness :
    (booking_task envBoom2 prefsTwo st0).1.last_status =
      "Error during booking run: " ++ "AttributeError: value has no attribute get" ∧
    Event.notify ("❌ Booking job error: " ++ "AttributeError: value has no attribute get") ∈
      (booking_task envBoom2 prefsTwo st0).2 := by
  have h := exception_caught_and_notified envBoom2 prefsTwo st0 _ _ _ _ rfl rfl
  simpa using h

theorem contains_empty_booked : containsSub "" "Booked" = false := by decide

theorem contains_empty_confirmed : containsSub (lowerStr "") "confirmed" = false := by decide

theorem or_empty_str (s : String) :
    (if pyTruthy (PyVal.str s) then PyVal.str s else PyVal.str "") = PyVal.str s := by
  cases s with
  | mk data => cases data <;> simp [pyTruthy]

/-- C3: book_slot returns true exactly when the transport status is 200 AND
the response body's header.title is a string containing "Booked"
(case-sensitively) or "confirmed" (case-insensitively); every other outcome —
non-200 status, transport exception, unparsable body, absent or non-string or
mismatched title — returns false, and book_slot is a total function (no
exception escapes). -/
theorem book_slot_success_iff (c : Int) (sl : PyVal) (w ts : Int) (r : HttpResult) :
    book_slot c sl w ts r = true ↔
      (httpStatus r = Option.some 200 ∧
       ∃ s, headerTitleString r = Option.some s ∧
         (containsSub s "Booked" = true ∨ containsSub (lowerStr s) "confirmed" = true)) := by
  cases r with
  | exc m => simp [book_slot, book_attempt, httpStatus]
  | resp status data text =>
      by_cases hs : status == 200
      case neg =>
        have hs2 : ¬(status = 200) := by simpa using hs
        cases data with
        | none => simp [book_slot, book_attempt, titleVal, httpStatus, hs, hs2]
        | some v =>
            cases v <;>
              simp [book_slot, book_attempt, titleVal, httpStatus, hs, hs2, pyGetAttrGet]
            case dict kvs =>
              cases hl : lookup kvs "header" with
              | none => simp [book_slot, book_attempt, titleVal, httpStatus, hl, hs, hs2,
                  headerTitleString, pyGetAttrGet, lookup]
              | some hv =>
                  cases hv <;>
                    simp [book_slot, book_attempt, titleVal, httpStatus, hl, hs, hs2,
                      headerTitleString, pyGetAttrGet]
      case pos =>
        have hs2 : status = 200 := by simpa using hs
        subst hs2
        cases data with
        | none =>
            simp [book_slot, book_attempt, titleVal, httpStatus, headerTitleString,
              pyInStr, pyLower, contains_empty_booked, contains_empty_confirmed]
        | some v =>
            cases v with
            | dict kvs =>
                cases hl : lookup kvs "header" with
                | none =>
                    simp [book_slot, book_attempt, titleVal, httpStatus, headerTitleString,
                      hl, pyGetAttrGet, lookup, pyInStr, pyLower,
                      contains_empty_booked, contains_empty_confirmed]
                | some hv =>
                    cases hv with
                    | dict hkvs =>
                        cases ht : lookup hkvs "title" with
                        | none =>
                            simp [book_slot, book_attempt, titleVal, httpStatus,
                              headerTitleString, hl, ht, pyGetAttrGet, pyInStr, pyLower,
                              contains_empty_booked, contains_empty_confirmed]
                        | some tv =>
                            cases tv with
                            | str s =>
                                simp only [book_slot, book_attempt, titleVal, httpStatus,
                                  headerTitleString, hl, ht, pyGetAttrGet, Option.getD,
                                  or_empty_str]
                                by_cases hb : containsSub s "Booked" <;>
                                  simp [pyInStr, pyLower, hb]
                            | none =>
                                simp [book_slot, book_attempt, titleVal, httpStatus,
                                  headerTitleString, hl, ht, pyGetAttrGet, pyTruthy,
                                  pyInStr, pyLower, contains_empty_booked,
                                  contains_empty_confirmed]
                            | bool b =>
                                cases b <;>
                                  simp [book_slot, book_attempt, titleVal, httpStatus,
                                    headerTitleString, hl, ht, pyGetAttrGet, pyTruthy,
                                    pyInStr, pyLower, contains_empty_booked,
                                    contains_empty_confirmed]
                            | int n =>
                                by_cases hn : n = 0 <;>
                                  simp [book_slot, book_attempt, titleVal, httpStatus,
                                    headerTitleString, hl, ht, pyGetAttrGet, pyTruthy, hn,
                                    pyInStr, pyLower, contains_empty_booked,
                                    contains_empty_confirmed]
                            | list xs =>
                                cases xs <;>
                                  simp [book_slot, book_attempt, titleVal, httpStatus,
                                    headerTitleString, hl, ht, pyGetAttrGet, pyTruthy,
                                    pyInStr, pyLower, contains_empty_booked,
                                    contains_empty_confirmed]
                            | dict dkvs =>
                                cases dkvs <;>
                                  simp [book_slot, book_attempt, titleVal, httpStatus,
                                    headerTitleString, hl, ht, pyGetAttrGet, pyTruthy,
                                    pyInStr, pyLower, contains_empty_booked,
                                    contains_empty_confirmed]
                    | none =>
                        simp [book_slot, book_attempt, titleVal, httpStatus,
                          headerTitleString, hl, pyGetAttrGet]
                    | bool b =>
                        simp [book_slot, book_attempt, titleVal, httpStatus,
                          headerTitleString, hl, pyGetAttrGet]
                    | int n =>
                        simp [book_slot, book_attempt, titleVal, httpStatus,
                          headerTitleString, hl, pyGetAttrGet]
                    | str s2 =>
                        simp [book_slot, book_attempt, titleVal, httpStatus,
                          headerTitleString, hl, pyGetAttrGet]
                    | list xs =>
                        simp [book_slot, book_attempt, titleVal, httpStatus,
                          headerTitleString, hl, pyGetAttrGet]
            | none =>
                simp [book_slot, book_attempt, titleVal, httpStatus, headerTitleString,
                  pyInStr, pyLower, contains_empty_booked, contains_empty_confirmed]
            | bool b =>
                simp [book_slot, book_attempt, titleVal, httpStatus, headerTitleString,
                  pyInStr, pyLower, contains_empty_booked, contains_empty_confirmed]
            | int n =>
                simp [book_slot, book_attempt, titleVal, httpStatus, headerTitleString,
                  pyInStr, pyLower, contains_empty_booked, contains_empty_confirmed]
            | str s =>
                simp [book_slot, book_attempt, titleVal, httpStatus, headerTitleString,
                  pyInStr, pyLower, contains_empty_booked, contains_empty_confirmed]
            | list xs =>
                simp [book_slot, book_attempt, titleVal, httpStatus, headerTitleString,
                  pyInStr, pyLower, contains_empty_booked, contains_empty_confirmed]

/-- Builder for a well-shaped time group dict, as the schedule JSON holds. -/
def mkTimeGroup (tgId : String) (slots : List PyVal) : PyVal :=
  PyVal.dict [("id", PyVal.str tgId), ("classes", PyVal.list slots)]

/-- Builder for a well-shaped date group dict. -/
def mkDateGroup (dgId : String) (tgs : List (String × List PyVal)) : PyVal :=
  PyVal.dict [("id", PyVal.str dgId),
    ("classByTimeList", PyVal.list (tgs.map fun p => mkTimeGroup p.1 p.2))]

/-- Builder for a well-shaped schedule document over arbitrary date groups,
time groups and class entries. -/
def mkSchedule (x : List (String × List (String × List PyVal))) : PyVal :=
  PyVal.dict [("classByDateList", PyVal.list (x.map fun p => mkDateGroup p.1 p.2))]

/-- Well-formedness of one class entry for the matcher characterization: a
dict whose workoutId and availableSeats fields, when present, are ints (the
shape the schedule endpoint returns; it rules out Python-only corners such as
a boolean seat count comparing numerically). -/
def wfSlot (slot : PyVal) : Bool :=
  match slot with
  | PyVal.dict kvs =>
      (match lookup kvs "workoutId" with
       | Option.none => true
       | Option.some (PyVal.int _) => true
       | _ => false) &&
      (match lookup kvs "availableSeats" with
       | Option.none => true
       | Option.some (PyVal.int _) => true
       | _ => false)
  | _ => false

/-- Total field access used to state the matcher predicates: slot.get(k, d)
for a dict, the default otherwise. -/
def slotField (slot : PyVal) (k : String) (d : PyVal) : PyVal :=
  match slot with
  | PyVal.dict kvs => (lookup kvs k).getD d
  | _ => d

/-- The candidate dict the matcher builds for a passing entry at the given
date id and time-label, stated independently of buildEntry's Except plumbing. -/
def entrySpec (dgId tgId : String) (slot : PyVal) : Entry :=
  { class_id := slotField slot "id" PyVal.none,
    date := PyVal.str dgId,
    time := PyVal.str tgId,
    start_time_utc := slotField slot "startDateTimeUTC" PyVal.none,
    seats := slotField slot "availableSeats" (PyVal.int 0),
    raw := slot }

/-- The matcher's three-way filter, as a boolean over the entry and the
enclosing time-label. -/
def slotPassB (sport : Int) (timings : List (Int × Int)) (tgId : String) (slot : PyVal) :
    Bool :=
  match slot with
  | PyVal.dict kvs =>
      (match lookup kvs "workoutId" with
       | Option.some (PyVal.int wid) => wid == sport
       | _ => false) &&
      (match lookup kvs "availableSeats" with
       | Option.some (PyVal.int n) => decide (0 < n)
       | _ => false) &&
      matches_preferred_timing timings (PyVal.str tgId)
  | _ => false

theorem mkTG_id (tgId : String) (ss : List PyVal) :
    pyGetAttrGet (mkTimeGroup tgId ss) "id" (PyVal.str "") = Except.ok (PyVal.str tgId) := rfl

theorem mkTG_id2 (tgId : String) (ss : List PyVal) :
    pyGetAttrGet (mkTimeGroup tgId ss) "id" PyVal.none = Except.ok (PyVal.str tgId) := rfl

theorem mkTG_classes (tgId : String) (ss : List PyVal) :
    pyGetAttrGet (mkTimeGroup tgId ss) "classes" (PyVal.list []) =
      Except.ok (PyVal.list ss) := rfl

theorem mkDG_id (dgId : String) (tgs : List (String × List PyVal)) :
    pyGetAttrGet (mkDateGroup dgId tgs) "id" PyVal.none = Except.ok (PyVal.str dgId) := rfl

theorem mkDG_ctl (dgId : String) (tgs : List (String × List PyVal)) :
    pyGetAttrGet (mkDateGroup dgId tgs) "classByTimeList" (PyVal.list []) =
      Except.ok (PyVal.list (tgs.map fun p => mkTimeGroup p.1 p.2)) := rfl

theorem wfSlot_dict (sl : PyVal) (h : wfSlot sl = true) :
    ∃ kvs, sl = PyVal.dict kvs := by
  cases sl <;> simp_all [wfSlot]

theorem slotFilter_wf (sport : Int) (timings : List (Int × Int)) (tgId : String)
    (ss : List PyVal) (sl : PyVal) (h : wfSlot sl = true) :
    slotFilter sport timings (mkTimeGroup tgId ss) sl =
      Except.ok (slotPassB sport timings tgId sl) := by
  cases sl with
  | dict kvs =>
      simp only [wfSlot, Bool.and_eq_true] at h
      obtain ⟨h1, h2⟩ := h
      cases hw : lookup kvs "workoutId" with
      | none => simp [slotFilter, slotPassB, pyGetAttrGet, hw, pyEqInt]
      | some wv =>
          rw [hw] at h1
          cases wv with
          | int wid =>
              cases hsv : lookup kvs "availableSeats" with
              | none =>
                  by_cases hws : wid = sport <;>
                    simp [slotFilter, slotPassB, pyGetAttrGet, hw, hsv, pyEqInt, pyGtInt, hws]
              | some sv =>
                  rw [hsv] at h2
                  cases sv with
                  | int n =>
                      by_cases hws : wid = sport <;> by_cases hn : (0 : Int) < n <;>
                        simp [slotFilter, slotPassB, pyGetAttrGet, hw, hsv, pyEqInt,
                          pyGtInt, hws, hn, mkTimeGroup, lookup]
                  | none => simp at h2
                  | bool b => simp at h2
                  | str s => simp at h2
                  | list xs => simp at h2
                  | dict d => simp at h2
          | none => simp at h1
          | bool b => simp at h1
          | str s => simp at h1
          | list xs => simp at h1
          | dict d => simp at h1
  | none => simp [wfSlot] at h
  | bool b => simp [wfSlot] at h
  | int n => simp [wfSlot] at h
  | str s => simp [wfSlot] at h
  | list xs => simp [wfSlot] at h

theorem buildEntry_mk (dgId tgId : String) (tgs : List (String × List PyVal))
    (ss : List PyVal) (kvs : List (String × PyVal)) :
    buildEntry (mkDateGroup dgId tgs) (mkTimeGroup tgId ss) (PyVal.dict kvs) =
      Except.ok (entrySpec dgId tgId (PyVal.dict kvs)) := rfl

/-- Spec-side candidate list of one time group. -/
def specOfTG (sport : Int) (timings : List (Int × Int)) (dgId : String)
    (p : String × List PyVal) : List Entry :=
  (p.2.filter (slotPassB sport timings p.1)).map (entrySpec dgId p.1)

/-- Spec-side candidate list of one date group. -/
def specOfDG (sport : Int) (timings : List (Int × Int))
    (dg : String × List (String × List PyVal)) : List Entry :=
  (dg.2.map (specOfTG sport timings dg.1)).flatten

/-- Spec-side candidate list of a whole schedule, in the matcher's
date-then-time-then-entry order. -/
def specEntries (sport : Int) (timings : List (Int × Int))
    (x : List (String × List (String × List PyVal))) : List Entry :=
  (x.map (specOfDG sport timings)).flatten

theorem procClasses_mk (sport : Int) (timings : List (Int × Int)) (dgId tgId : String)
    (tgs : List (String × List PyVal)) (ss : List PyVal) :
    ∀ (slots : List PyVal), (∀ sl ∈ slots, wfSlot sl = true) →
      procClasses sport timings (mkDateGroup dgId tgs) (mkTimeGroup tgId ss) slots =
        Except.ok ((slots.filter (slotPassB sport timings tgId)).map (entrySpec dgId tgId)) := by
  intro slots
  induction slots with
  | nil => intro _; rfl
  | cons sl rest ih =>
      intro h
      have hsl := h sl (List.mem_cons_self sl rest)
      have hrest : ∀ s2 ∈ rest, wfSlot s2 = true :=
        fun s2 hs2 => h s2 (List.mem_cons_of_mem sl hs2)
      obtain ⟨kvs, rfl⟩ := wfSlot_dict sl hsl
      simp only [procClasses, slotFilter_wf sport timings tgId ss _ hsl]
      cases hb : slotPassB sport timings tgId (PyVal.dict kvs) with
      | true =>
          simp [buildEntry_mk, ih hrest, List.filter_cons, hb]
      | false =>
          simp [ih hrest, List.filter_cons, hb]

theorem procTimeGroups_mk (sport : Int) (timings : List (Int × Int)) (dgId : String)
    (dtgs : List (String × List PyVal)) :
    ∀ (tgs : List (String × List PyVal)),
      (∀ p ∈ tgs, ∀ sl ∈ p.2, wfSlot sl = true) →
      procTimeGroups sport timings (mkDateGroup dgId dtgs)
          (tgs.map fun p => mkTimeGroup p.1 p.2) =
        Except.ok ((tgs.map (specOfTG sport timings dgId)).flatten) := by
  intro tgs
  induction tgs with
  | nil => intro _; rfl
  | cons p rest ih =>
      intro h
      have hp : ∀ sl ∈ p.2, wfSlot sl = true := h p (List.mem_cons_self p rest)
      have hrest : ∀ q ∈ rest, ∀ sl ∈ q.2, wfSlot sl = true :=
        fun q hq => h q (List.mem_cons_of_mem p hq)
      simp only [List.map_cons, procTimeGroups, mkTG_classes, pyIter,
        procClasses_mk sport timings dgId p.1 dtgs p.2 p.2 hp, ih hrest]
      simp [specOfTG, List.flatten]

theorem procDateGroups_mk (sport : Int) (timings : List (Int × Int)) :
    ∀ (x : List (String × List (String × List PyVal))),
      (∀ dg ∈ x, ∀ tg ∈ dg.2, ∀ sl ∈ tg.2, wfSlot sl = true) →
      procDateGroups sport timings (x.map fun p => mkDateGroup p.1 p.2) =
        Except.ok (specEntries sport timings x) := by
  intro x
  induction x with
  | nil => intro _; rfl
  | cons dg rest ih =>
      intro h
      have hdg : ∀ tg ∈ dg.2, ∀ sl ∈ tg.2, wfSlot sl = true :=
        h dg (List.mem_cons_self dg rest)
      have hrest : ∀ q ∈ rest, ∀ tg ∈ q.2, ∀ sl ∈ tg.2, wfSlot sl = true :=
        fun q hq => h q (List.mem_cons_of_mem dg hq)
      simp only [List.map_cons, procDateGroups, mkDG_ctl, pyIter,
        procTimeGroups_mk sport timings dg.1 dg.2 dg.2 hdg, ih hrest]
      simp [specEntries, specOfDG, List.flatten]

theorem display_mk (x : List (String × List (String × List PyVal)))
    (sport : Int) (timings : List (Int × Int))
    (hwf : ∀ dg ∈ x, ∀ tg ∈ dg.2, ∀ sl ∈ tg.2, wfSlot sl = true) :
    display_available_slots (mkSchedule x) sport timings =
      Except.ok (if (specEntries sport timings x).isEmpty then Option.none
                 else Option.some (specEntries sport timings x)) := by
  have h0 : display_available_slots (mkSchedule x) sport timings =
      (match procDateGroups sport timings (x.map fun p => mkDateGroup p.1 p.2) with
       | Except.error e => Except.error e
       | Except.ok es =>
           Except.ok (if es.isEmpty then Option.none else Option.some es)) := rfl
  rw [h0, procDateGroups_mk sport timings x hwf]

theorem matches_iff (timings : List (Int × Int)) (v : PyVal) :
    matches_preferred_timing timings v = true ↔
      ∃ hh mm : Int, parse_time_string v = Option.some (hh, mm) ∧ (hh, mm) ∈ timings := by
  unfold matches_preferred_timing
  cases hp : parse_time_string v with
  | none => simp
  | some p =>
      obtain ⟨h, m⟩ := p
      simp only [List.any_eq_true, Option.some.injEq]
      constructor
      · rintro ⟨q, hq, hqe⟩
        obtain ⟨q1, q2⟩ := q
        simp only [Bool.and_eq_true, beq_iff_eq] at hqe
        exact ⟨h, m, rfl, by rw [hqe.1, hqe.2]; exact hq⟩
      · rintro ⟨hh, mm, heq, hmem⟩
        simp only [Prod.mk.injEq] at heq
        obtain ⟨rfl, rfl⟩ := heq
        exact ⟨(h, m), hmem, by simp⟩

theorem slotPassB_iff (sport : Int) (timings : List (Int × Int)) (tgId : String)
    (sl : PyVal) :
    slotPassB sport timings tgId sl = true ↔
      (slotField sl "workoutId" PyVal.none = PyVal.int sport ∧
       (∃ n : Int, slotField sl "availableSeats" (PyVal.int 0) = PyVal.int n ∧ 0 < n) ∧
       (∃ hh mm : Int, parse_time_string (PyVal.str tgId) = Option.some (hh, mm) ∧
          (hh, mm) ∈ timings)) := by
  cases sl with
  | dict kvs =>
      simp only [slotPassB, Bool.and_eq_true, slotField, and_assoc]
      refine and_congr ?_ (and_congr ?_ ?_)
      · cases hw : lookup kvs "workoutId" with
        | none => simp
        | some wv => cases wv <;> simp
      · cases hsv : lookup kvs "availableSeats" with
        | none => simp
        | some sv => cases sv <;> simp
      · exact matches_iff timings (PyVal.str tgId)
  | none => simp [slotPassB, slotField]
  | bool b => simp [slotPassB, slotField]
  | int n => simp [slotPassB, slotField]
  | str s => simp [slotPassB, slotField]
  | list xs => simp [slotPassB, slotField]

theorem mem_specEntries (sport : Int) (timings : List (Int × Int))
    (x : List (String × List (String × List PyVal))) (e : Entry) :
    e ∈ specEntries sport timings x ↔
      ∃ dg ∈ x, ∃ tg ∈ dg.2, ∃ sl ∈ tg.2,
        slotPassB sport timings tg.1 sl = true ∧ e = entrySpec dg.1 tg.1 sl := by
  constructor
  · intro he
    simp only [specEntries, List.mem_flatten, List.mem_map] at he
    obtain ⟨l, ⟨dg, hdg, rfl⟩, he⟩ := he
    simp only [specOfDG, List.mem_flatten, List.mem_map] at he
    obtain ⟨l2, ⟨tg, htg, rfl⟩, he⟩ := he
    simp only [specOfTG, List.mem_map, List.mem_filter] at he
    obtain ⟨sl, ⟨hsl, hpass⟩, rfl⟩ := he
    exact ⟨dg, hdg, tg, htg, sl, hsl, hpass, rfl⟩
  · rintro ⟨dg, hdg, tg, htg, sl, hsl, hpass, rfl⟩
    simp only [specEntries, List.mem_flatten, List.mem_map]
    refine ⟨specOfDG sport timings dg, ⟨dg, hdg, rfl⟩, ?_⟩
    simp only [specOfDG, List.mem_flatten, List.mem_map]
    refine ⟨specOfTG sport timings dg.1 tg, ⟨tg, htg, rfl⟩, ?_⟩
    simp only [specOfTG, List.mem_map, List.mem_filter]
    exact ⟨sl, ⟨hsl, hpass⟩, rfl⟩

/-- C7: over every well-shaped availability input, the matcher produces a
candidate for an entry iff all three predicates hold — the entry's resource
identifier (workoutId) equals the target, its available-seat count is greater
than 0, and the enclosing time-label parses as HOUR:MINUTE exactly equal to
one of the preferred pairs; a label that fails to parse simply excludes the
entry, and no exception reaches the caller. -/
theorem matcher_candidate_iff (x : List (String × List (String × List PyVal)))
    (sport : Int) (timings : List (Int × Int))
    (hwf : ∀ dg ∈ x, ∀ tg ∈ dg.2, ∀ sl ∈ tg.2, wfSlot sl = true) :
    ∃ es : List Entry,
      display_available_slots (mkSchedule x) sport timings =
        Except.ok (if es.isEmpty then Option.none else Option.some es) ∧
      ∀ e : Entry, e ∈ es ↔
        ∃ dg ∈ x, ∃ tg ∈ dg.2, ∃ sl ∈ tg.2,
          e = entrySpec dg.1 tg.1 sl ∧
          slotField sl "workoutId" PyVal.none = PyVal.int sport ∧
          (∃ n : Int, slotField sl "availableSeats" (PyVal.int 0) = PyVal.int n ∧ 0 < n) ∧
          (∃ hh mm : Int, parse_time_string (PyVal.str tg.1) = Option.some (hh, mm) ∧
            (hh, mm) ∈ timings) := by
  refine ⟨specEntries sport timings x, display_mk x sport timings hwf, fun e => ?_⟩
  rw [mem_specEntries]
  simp only [slotPassB_iff]
  constructor
  · rintro ⟨dg, hdg, tg, htg, sl, hsl, ⟨hp1, hp2, hp3⟩, rfl⟩
    exact ⟨dg, hdg, tg, htg, sl, hsl, rfl, hp1, hp2, hp3⟩
  · rintro ⟨dg, hdg, tg, htg, sl, hsl, rfl, hp1, hp2, hp3⟩
    exact ⟨dg, hdg, tg, htg, sl, hsl, ⟨hp1, hp2, hp3⟩, rfl⟩

/-- C7 witness: a two-entry schedule (one passing, one failing entry) at the
concrete sport 350 with preferred time (8, 0). -/
theorem matcher_candidate_iff_witness :
    ∃ es : List Entry,
      display_available_slots
          (mkSchedule [("2025-01-06", [("08:00",
            [PyVal.dict [("id", PyVal.int 111), ("workoutId", PyVal.int 350),
               ("availableSeats", PyVal.int 3),
               ("startDateTimeUTC", PyVal.str "Mon, 06 Jan 2025 08:00:00 GMT")],
             PyVal.dict [("id", PyVal.int 5), ("workoutId", PyVal.int 999),
               ("availableSeats", PyVal.int 2)]])])]) 350 [(8, 0)] =
        Except.ok (if es.isEmpty then Option.none else Option.some es) ∧
      ∀ e : Entry, e ∈ es ↔
        ∃ dg ∈ [("2025-01-06", [("08:00",
            [PyVal.dict [("id", PyVal.int 111), ("workoutId", PyVal.int 350),
               ("availableSeats", PyVal.int 3),
               ("startDateTimeUTC", PyVal.str "Mon, 06 Jan 2025 08:00:00 GMT")],
             PyVal.dict [("id", PyVal.int 5), ("workoutId", PyVal.int 999),
               ("availableSeats", PyVal.int 2)]])])],
          ∃ tg ∈ dg.2, ∃ sl ∈ tg.2,
          e = entrySpec dg.1 tg.1 sl ∧
          slotField sl "workoutId" PyVal.none = PyVal.int 350 ∧
          (∃ n : Int, slotField sl "availableSeats" (PyVal.int 0) = PyVal.int n ∧ 0 < n) ∧
          (∃ hh mm : Int, parse_time_string (PyVal.str tg.1) = Option.some (hh, mm) ∧
            (hh, mm) ∈ [((8 : Int), (0 : Int))]) :=
  matcher_candidate_iff
    [("2025-01-06", [("08:00",
      [PyVal.dict [("id", PyVal.int 111), ("workoutId", PyVal.int 350),
         ("availableSeats", PyVal.int 3),
         ("startDateTimeUTC", PyVal.str "Mon, 06 Jan 2025 08:00:00 GMT")],
       PyVal.dict [("id", PyVal.int 5), ("workoutId", PyVal.int 999),
         ("availableSeats", PyVal.int 2)]])])] 350 [(8, 0)]
    (by intro dg hdg tg htg sl hsl; fin_cases hdg; fin_cases htg; fin_cases hsl <;> rfl)

example :
    book_slot 1106 (PyVal.int 1) 350 5
      (HttpResult.resp 200
        (Option.some (PyVal.dict [("header", PyVal.dict [("title", PyVal.str "Booked!")])]))
        "") = true := by decide

example :
    book_slot 1106 (PyVal.int 1) 350 5
      (HttpResult.resp 200
        (Option.some (PyVal.dict [("header", PyVal.dict [("title", PyVal.str "Sold out")])]))
        "") = false := by decide

example :
    book_slot 1106 (PyVal.int 1) 350 5
      (HttpResult.resp 200
        (Option.some (PyVal.dict [("header", PyVal.dict [("title", PyVal.str "CONFIRMED")])]))
        "") = true := by decide

example :
    book_slot 1106 (PyVal.int 1) 350 5
      (HttpResult.resp 200
        (Option.some (PyVal.dict [("header", PyVal.dict [("title", PyVal.str "booked")])]))
        "") = false := by decide

example :
    convert_utc_to_timestamp (PyVal.str "Mon, 06 Jan 2025 08:00:00 GMT")
      = Option.some 1736150400000 := by decide

example : convert_utc_to_timestamp (PyVal.str "garbage") = Option.none := by decide

example : parse_time_string (PyVal.str "08:00") = Option.some (8, 0) := by decide
example : parse_time_string (PyVal.str "08:00:00") = Option.some (8, 0) := by decide
example : parse_time_string (PyVal.str "8") = Option.none := by decide
example : parse_time_string (PyVal.str "ab:00") = Option.none := by decide
example : matches_preferred_timing [(8, 0), (9, 0)] (PyVal.str "08:05") = false := by decide
example : matches_preferred_timing [(8, 0), (9, 0)] (PyVal.str "09:00") = true := by decide
